import Mathlib

/-!
# Windows runner entry point (`windows/runner/main.cpp`)

A shallow embedding of `ConfigurePythonRuntime` and `wWinMain`.

* Wide strings (`std::wstring`, `wchar_t[]`) are lists of code units; a code
  unit is a natural number.  `L "..."` is the wide literal `L"..."`.
* Calls into the operating system are recorded, in program order, in a trace
  of `Event`s; what the operating system answers is an input of the model.
* The process environment is a map from variable names to values.
-/

namespace Runner

/-! ## Wide strings -/

/-- One `wchar_t` code unit. -/
abbrev wchar_t := Nat

/-- A `std::wstring`: the stored code units, without a terminator. -/
abbrev wstring := List wchar_t

/-- The wide string literal `L"..."`. -/
def L (s : String) : wstring := s.toList.map Char.toNat

/-- The terminator of a C string. -/
def NUL : wchar_t := 0

/-- The string a callee reads through the pointer `s.c_str()`: a reader of a
NUL-terminated string stops at the first NUL unit. -/
def c_str (s : wstring) : wstring := s.takeWhile (fun c => c ≠ NUL)

/-- `s.find_last_of(chars)`: the greatest index of `s` holding a unit that
occurs in `chars`; `none` stands for `std::wstring::npos`. -/
def find_last_of : wstring → wstring → Option Nat
  | [], _ => none
  | c :: s, chars =>
    match find_last_of s chars with
    | some i => some (i + 1)
    | none => if c ∈ chars then some 0 else none

/-- `s.substr(pos, n)` for `pos ≤ s.size()` (the only call in the program has
`pos = 0`): at most `n` units starting at index `pos`. -/
def substr (s : wstring) (pos n : Nat) : wstring := (s.drop pos).take n

/-! ## Operating system facade -/

/-- The answer of `GetModuleFileName(nullptr, module_path, MAX_PATH)`.
`module_path` holds the units the call stored at the front of the buffer and
the returned `length` is their number (the units of the buffer behind them are
never read by the program).  The call stores a C string and reports its length
without the terminator, so none of the counted units is NUL. -/
structure ModuleFileName where
  module_path : wstring
  no_nul : module_path.all (fun c => c != NUL) = true

/-- The `DWORD` returned by `GetModuleFileName`. -/
def ModuleFileName.length (m : ModuleFileName) : Nat := m.module_path.length

/-- The answer of one `CreateDirectory` call: the returned `BOOL` and the
last-error code left behind (`ERROR_ALREADY_EXISTS` is 183). -/
structure CreateDirectoryResult where
  ret : Bool
  last_error : Nat
  deriving DecidableEq, Repr

/-- The record `MSG`; the program never looks inside it. -/
abbrev MSG := Nat

/-- The descriptor `flutter::DartProject`: its path and the arguments it will
hand to the Dart entry point. -/
structure DartProject where
  path : wstring
  dart_entrypoint_arguments : List String
  deriving DecidableEq, Repr

/-- The setter `DartProject::set_dart_entrypoint_arguments`. -/
def DartProject.set_dart_entrypoint_arguments (project : DartProject)
    (arguments : List String) : DartProject :=
  { project with dart_entrypoint_arguments := arguments }

/-- Calls made by the program, as they appear in a trace. -/
inductive Event where
  | AttachConsole (ret : Bool)
  | IsDebuggerPresent (ret : Bool)
  | CreateAndAttachConsole
  | CoInitializeEx
  | GetModuleFileName (length : Nat)
  | SetEnvironmentVariable (name value : wstring)
  | CreateDirectory (path : wstring) (result : CreateDirectoryResult)
  | DartProject (path : wstring)
  | GetCommandLineArguments
  | set_dart_entrypoint_arguments (arguments : List String)
  | FlutterWindow (project : DartProject)
  | Create (title : wstring) (origin size : Nat × Nat) (ret : Bool)
  | SetQuitOnClose (quit_on_close : Bool)
  | GetMessage (ret : Int)
  | TranslateMessage (msg : MSG)
  | DispatchMessage (msg : MSG)
  | CoUninitialize
  deriving DecidableEq, Repr

/-- The environment block of the process. -/
abbrev Env := wstring → Option wstring

/-- The effect of `SetEnvironmentVariable(name, value)` on the environment. -/
def Env.set (env : Env) (name value : wstring) : Env :=
  fun k => if k = name then some value else env k

/-- The observable state of the process: its environment and the calls made so
far, oldest first. -/
structure World where
  env : Env
  trace : List Event

/-- Append one call to the trace. -/
def World.emit (w : World) (e : Event) : World :=
  { w with trace := w.trace ++ [e] }

/-- `SetEnvironmentVariable(name, value)` with both arguments C strings. -/
def SetEnvironmentVariable (name value : wstring) (w : World) : World :=
  { env := w.env.set (c_str name) (c_str value),
    trace := w.trace ++ [Event.SetEnvironmentVariable (c_str name) (c_str value)] }

/-! ## `ConfigurePythonRuntime` -/

/-- The function `ConfigurePythonRuntime` of the anonymous namespace.
`MAX_PATH` is the constant of `<windows.h>`, `m` is what `GetModuleFileName`
answers and `createDirectory` what `CreateDirectory` answers for a path. -/
def ConfigurePythonRuntime (MAX_PATH : Nat) (m : ModuleFileName)
    (createDirectory : wstring → CreateDirectoryResult) (w : World) : World :=
  let length := m.length
  let w := w.emit (Event.GetModuleFileName length)
  if length = 0 ∨ length = MAX_PATH then
    w
  else
    let directory : wstring := m.module_path.take length
    match find_last_of directory (L "\\/") with
    | none => w
    | some position =>
      let directory := substr directory 0 position
      let w := SetEnvironmentVariable (L "PYTHONHOME") directory w
      let python_dir := directory ++ L "\\python-runtime"
      let w := w.emit (Event.CreateDirectory (c_str python_dir) (createDirectory (c_str python_dir)))
      SetEnvironmentVariable (L "PYTHONPATH") python_dir w

/-! ## `wWinMain` -/

/-- `EXIT_SUCCESS` of `<cstdlib>`. -/
def EXIT_SUCCESS : Int := 0

/-- `EXIT_FAILURE` of `<cstdlib>`. -/
def EXIT_FAILURE : Int := 1

/-- What the operating system and the window shell answer during one run of
`wWinMain`.  `GetMessage` lists the answers of the successive `GetMessage`
calls: the returned value and the content of `msg` after the call.  When the
list is used up the next call blocks for good. -/
structure Answers where
  AttachConsole : Bool
  IsDebuggerPresent : Bool
  GetModuleFileName : ModuleFileName
  CreateDirectory : wstring → CreateDirectoryResult
  GetCommandLineArguments : List String
  Create : Bool
  GetMessage : List (Int × MSG)

/-- The loop `while (::GetMessage(&msg, nullptr, 0, 0)) { ... }`.  The boolean
tells whether the loop was left; it is `false` when `GetMessage` blocks for
good. -/
def MessageLoop : List (Int × MSG) → World → World × Bool
  | [], w => (w, false)
  | (ret, msg) :: answers, w =>
    let w := w.emit (Event.GetMessage ret)
    if ret ≠ 0 then
      let w := w.emit (Event.TranslateMessage msg)
      let w := w.emit (Event.DispatchMessage msg)
      MessageLoop answers w
    else
      (w, true)

/-- The result of running `wWinMain`: the final state, the project descriptor
given to the window, and the exit status (`none` while the process is still
blocked in `GetMessage`). -/
structure Outcome where
  world : World
  project : DartProject
  exit_status : Option Int

/-- The entry point `wWinMain`, started in environment `env`.  Its four
parameters are unused by the body and are left out. -/
def wWinMain (MAX_PATH : Nat) (os : Answers) (env : Env) : Outcome :=
  let w : World := { env := env, trace := [] }
  let w := w.emit (Event.AttachConsole os.AttachConsole)
  let w :=
    if os.AttachConsole then w
    else
      let w := w.emit (Event.IsDebuggerPresent os.IsDebuggerPresent)
      if os.IsDebuggerPresent then w.emit Event.CreateAndAttachConsole else w
  let w := w.emit Event.CoInitializeEx
  let w := ConfigurePythonRuntime MAX_PATH os.GetModuleFileName os.CreateDirectory w
  let project : DartProject := { path := L "data", dart_entrypoint_arguments := [] }
  let w := w.emit (Event.DartProject (L "data"))
  let command_line_arguments := os.GetCommandLineArguments
  let w := w.emit Event.GetCommandLineArguments
  let project := project.set_dart_entrypoint_arguments command_line_arguments
  let w := w.emit (Event.set_dart_entrypoint_arguments command_line_arguments)
  let w := w.emit (Event.FlutterWindow project)
  let origin : Nat × Nat := (10, 10)
  let size : Nat × Nat := (1280, 720)
  let w := w.emit (Event.Create (L "flutter_application_1") origin size os.Create)
  if !os.Create then
    { world := w, project := project, exit_status := some EXIT_FAILURE }
  else
    let w := w.emit (Event.SetQuitOnClose true)
    match MessageLoop os.GetMessage w with
    | (w, false) => { world := w, project := project, exit_status := none }
    | (w, true) =>
      let w := w.emit Event.CoUninitialize
      { world := w, project := project, exit_status := some EXIT_SUCCESS }

/-! ## Vocabulary of the properties -/

/-- The code unit of the backslash. -/
def backslash : wchar_t := 92

/-- The code unit of the slash. -/
def slash : wchar_t := 47

/-- A path separator: a backslash or a slash. -/
def is_separator (c : wchar_t) : Bool := c == backslash || c == slash

/-- An absolute path in the sense of the specification: it starts at a root
directory, either directly (`/demo`) or behind a drive letter and a colon
(`C:\demo.exe`). -/
def spec_is_absolute : wstring → Bool
  | [] => false
  | c :: rest =>
    is_separator c ||
      match rest with
      | colon :: sep :: _ =>
        ((65 ≤ c && c ≤ 90) || (97 ≤ c && c ≤ 122)) && colon == 58 && is_separator sep
      | _ => false

/-- The module path `s` as `GetModuleFileName` reports it; `h` states that it
holds no NUL unit. -/
def ModuleFileName.of (s : wstring) (h : s.all (fun c => c != NUL) = true) : ModuleFileName :=
  { module_path := s, no_nul := h }

/-- The calls `TranslateMessage(&msg); DispatchMessage(&msg);` made for each
answer of a list of `GetMessage` answers, each preceded by its `GetMessage`. -/
def pumped : List (Int × MSG) → List Event
  | [] => []
  | (ret, msg) :: rest =>
    Event.GetMessage ret :: Event.TranslateMessage msg :: Event.DispatchMessage msg :: pumped rest

/-- Every event of `t` satisfying `p` comes before every event satisfying `q`. -/
def occursBefore (p q : Event → Bool) (t : List Event) : Prop :=
  ∀ (i j : Nat) (e₁ e₂ : Event), t[i]? = some e₁ → t[j]? = some e₂ → p e₁ = true → q e₂ = true → i < j

/-- The event is the apartment initialisation. -/
def Event.isCoInitializeEx : Event → Bool
  | Event.CoInitializeEx => true
  | _ => false

/-- The event is the apartment release. -/
def Event.isCoUninitialize : Event → Bool
  | Event.CoUninitialize => true
  | _ => false

/-- The event is a call made by Runtime Discovery. -/
def Event.isDiscovery : Event → Bool
  | Event.GetModuleFileName _ => true
  | Event.SetEnvironmentVariable _ _ => true
  | Event.CreateDirectory _ _ => true
  | _ => false

/-- The event is the window creation. -/
def Event.isCreate : Event → Bool
  | Event.Create _ _ _ _ => true
  | _ => false

/-- The event is a message retrieval. -/
def Event.isGetMessage : Event → Bool
  | Event.GetMessage _ => true
  | _ => false

/-- The event is a message dispatch. -/
def Event.isDispatchMessage : Event → Bool
  | Event.DispatchMessage _ => true
  | _ => false

/-- The event belongs to the console set-up. -/
def Event.isConsole : Event → Bool
  | Event.AttachConsole _ => true
  | Event.IsDebuggerPresent _ => true
  | Event.CreateAndAttachConsole => true
  | _ => false

/-- The event belongs to the construction of the project descriptor and of
the window object, up to but not including `Create`. -/
def Event.isProject : Event → Bool
  | Event.DartProject _ => true
  | Event.GetCommandLineArguments => true
  | Event.set_dart_entrypoint_arguments _ => true
  | Event.FlutterWindow _ => true
  | _ => false

/-- The event belongs to the message pump. -/
def Event.isPump : Event → Bool
  | Event.GetMessage _ => true
  | Event.TranslateMessage _ => true
  | Event.DispatchMessage _ => true
  | _ => false

/-- The message pump as the specification words it: the loop is left at the
first retrieval whose result is not positive (zero for a quit message,
negative for a failed retrieval), nothing is translated or dispatched at or
after it, and every earlier message is translated and dispatched once, in
order. -/
def pump_ends_at_first_non_positive (answers : List (Int × MSG)) : Prop :=
  ∀ (before : List (Int × MSG)) (ret : Int) (msg : MSG) (rest : List (Int × MSG)) (w : World),
    answers = before ++ (ret, msg) :: rest → (∀ x ∈ before, 0 < x.1) → ret ≤ 0 →
    (MessageLoop answers w).2 = true ∧
    (MessageLoop answers w).1.env = w.env ∧
    (MessageLoop answers w).1.trace = w.trace ++ pumped before ++ [Event.GetMessage ret]

/-! ## Sample inputs -/

/-- The value of `MAX_PATH` in `<windows.h>`. -/
def MAX_PATH_windows : Nat := 260

/-- Scenario S1: the executable is `C:\Apps\Demo\demo.exe`. -/
def module_S1 : ModuleFileName := ModuleFileName.of (L "C:\\Apps\\Demo\\demo.exe") (by decide)

/-- Scenario S2: the executable is `/opt/demo/demo`. -/
def module_S2 : ModuleFileName := ModuleFileName.of (L "/opt/demo/demo") (by decide)

/-- Scenario S3: the reported path is `demo.exe`. -/
def module_S3 : ModuleFileName := ModuleFileName.of (L "demo.exe") (by decide)

/-- A path with both kinds of separator, the slash last. -/
def module_mixed : ModuleFileName := ModuleFileName.of (L "C:\\Apps/demo.exe") (by decide)

/-- An executable placed in the root directory of drive `C:`. -/
def module_root : ModuleFileName := ModuleFileName.of (L "C:\\demo.exe") (by decide)

set_option maxRecDepth 8000 in
/-- A path of exactly 260 units: the answer `GetModuleFileName` gives when the
path does not fit the buffer. -/
def module_truncated : ModuleFileName :=
  ModuleFileName.of (L "C:\\" ++ List.replicate 257 97) (by decide)

/-- The empty answer: `GetModuleFileName` failed and returned 0. -/
def module_failed : ModuleFileName := ModuleFileName.of [] (by decide)

/-- The root-level path `/demo`. -/
def module_slash_root : ModuleFileName := ModuleFileName.of (L "/demo") (by decide)

/-- A `CreateDirectory` that succeeds. -/
def createDirectory_ok : wstring → CreateDirectoryResult :=
  fun _ => { ret := true, last_error := 0 }

/-- A `CreateDirectory` that fails with `ERROR_ALREADY_EXISTS`. -/
def createDirectory_exists : wstring → CreateDirectoryResult :=
  fun _ => { ret := false, last_error := 183 }

/-- A `CreateDirectory` that fails with `ERROR_ACCESS_DENIED`. -/
def createDirectory_denied : wstring → CreateDirectoryResult :=
  fun _ => { ret := false, last_error := 5 }

/-- Answers of a run started from a console, with the executable at
`C:\Apps\Demo\demo.exe`, the arguments of scenario S4, a window that is created,
and three messages followed by the quit message. -/
def answers_S6 : Answers :=
  { AttachConsole := true,
    IsDebuggerPresent := false,
    GetModuleFileName := module_S1,
    CreateDirectory := createDirectory_exists,
    GetCommandLineArguments := ["--flag", "value with spaces"],
    Create := true,
    GetMessage := [(1, 15), (1, 256), (1, 16), (0, 18)] }

/-- Answers of a run in which the window cannot be created (scenario S5). -/
def answers_S5 : Answers := { answers_S6 with AttachConsole := false, Create := false }

/-- A process state with an empty environment and no call made yet. -/
def World.fresh : World := { env := fun _ => none, trace := [] }

/-! ## Lemmas on wide strings -/

theorem c_str_of_no_nul (s : wstring) (h : s.all (fun c => c != NUL) = true) :
    c_str s = s := by
  unfold c_str
  rw [List.takeWhile_eq_self_iff]
  intro c hc
  have := (List.all_eq_true.mp h) c hc
  simpa using this

theorem find_last_of_eq_none (s chars : wstring) :
    find_last_of s chars = none ↔ ∀ c ∈ s, c ∉ chars := by
  induction s with
  | nil => simp [find_last_of]
  | cons c s ih =>
    unfold find_last_of
    cases h : find_last_of s chars with
    | some i =>
      have : ¬ ∀ c ∈ s, c ∉ chars := fun hall => by
        rw [ih.mpr hall] at h
        cases h
      simp only [List.mem_cons, forall_eq_or_imp]
      constructor
      · intro h0; cases h0
      · intro ⟨_, h2⟩; exact absurd h2 this
    | none =>
      have hs := ih.mp h
      by_cases hc : c ∈ chars
      · simp [hc]
      · simpa [hc] using hs

theorem find_last_of_eq_some (s chars : wstring) (i : Nat)
    (h : find_last_of s chars = some i) :
    ∃ c tail, s = s.take i ++ c :: tail ∧ c ∈ chars ∧ ∀ x ∈ tail, x ∉ chars := by
  induction s generalizing i with
  | nil => simp [find_last_of] at h
  | cons c s ih =>
    unfold find_last_of at h
    cases hs : find_last_of s chars with
    | some j =>
      rw [hs] at h
      simp only [Option.some.injEq] at h
      subst h
      obtain ⟨d, tail, h1, h2, h3⟩ := ih j hs
      refine ⟨d, tail, ?_, h2, h3⟩
      simp only [List.take_succ_cons, List.cons_append]
      rw [← h1]
    | none =>
      rw [hs] at h
      by_cases hc : c ∈ chars
      · simp only [hc, if_true, Option.some.injEq] at h
        subst h
        exact ⟨c, s, by simp, hc, (find_last_of_eq_none s chars).mp hs⟩
      · simp [hc] at h

/-! ## Lemmas on `ConfigurePythonRuntime` -/

theorem no_separator_iff (s : wstring) :
    (∀ c ∈ s, c ∉ L "\\/") ↔ ∀ c ∈ s, is_separator c = false := by
  have key : ∀ c : wchar_t, c ∉ L "\\/" ↔ is_separator c = false := by
    intro c
    have hL : L "\\/" = [backslash, slash] := by decide
    rw [hL]
    simp [is_separator]
  constructor
  · intro h c hc; exact (key c).mp (h c hc)
  · intro h c hc; exact (key c).mpr (h c hc)

theorem mem_separators_iff (c : wchar_t) : c ∈ L "\\/" ↔ is_separator c = true := by
  have hL : L "\\/" = [backslash, slash] := by decide
  rw [hL]
  simp [is_separator]

theorem ConfigurePythonRuntime_abort (MAX_PATH : Nat) (m : ModuleFileName)
    (createDirectory : wstring → CreateDirectoryResult) (w : World)
    (h : m.length = 0 ∨ m.length = MAX_PATH ∨ ∀ c ∈ m.module_path, is_separator c = false) :
    ConfigurePythonRuntime MAX_PATH m createDirectory w
      = w.emit (Event.GetModuleFileName m.length) := by
  unfold ConfigurePythonRuntime
  by_cases hg : m.length = 0 ∨ m.length = MAX_PATH
  · simp only [hg, if_true]
  · have hsep : ∀ c ∈ m.module_path, is_separator c = false := by
      rcases h with h | h | h
      · exact absurd (Or.inl h) hg
      · exact absurd (Or.inr h) hg
      · exact h
    have hnone : find_last_of (List.take m.length m.module_path) (L "\\/") = none := by
      rw [ModuleFileName.length, List.take_length, find_last_of_eq_none, no_separator_iff]
      exact hsep
    simp only [hg, if_false, hnone]

theorem ConfigurePythonRuntime_pass (MAX_PATH : Nat) (m : ModuleFileName)
    (createDirectory : wstring → CreateDirectoryResult) (w : World) (position : Nat)
    (h0 : m.length ≠ 0) (h1 : m.length ≠ MAX_PATH)
    (hpos : find_last_of m.module_path (L "\\/") = some position) :
    ConfigurePythonRuntime MAX_PATH m createDirectory w
      = { env := (w.env.set (L "PYTHONHOME") (m.module_path.take position)).set
                  (L "PYTHONPATH") (m.module_path.take position ++ L "\\python-runtime"),
          trace := w.trace ++
            [Event.GetModuleFileName m.length,
             Event.SetEnvironmentVariable (L "PYTHONHOME") (m.module_path.take position),
             Event.CreateDirectory (m.module_path.take position ++ L "\\python-runtime")
               (createDirectory (m.module_path.take position ++ L "\\python-runtime")),
             Event.SetEnvironmentVariable (L "PYTHONPATH")
               (m.module_path.take position ++ L "\\python-runtime")] } := by
  have hdir : c_str (m.module_path.take position) = m.module_path.take position := by
    apply c_str_of_no_nul
    rw [List.all_eq_true]
    intro c hc
    exact (List.all_eq_true.mp m.no_nul) c (List.mem_of_mem_take hc)
  have hpy : c_str (m.module_path.take position ++ L "\\python-runtime")
      = m.module_path.take position ++ L "\\python-runtime" := by
    apply c_str_of_no_nul
    rw [List.all_append, Bool.and_eq_true]
    refine ⟨?_, by decide⟩
    rw [List.all_eq_true]
    intro c hc
    exact (List.all_eq_true.mp m.no_nul) c (List.mem_of_mem_take hc)
  have hH : c_str (L "PYTHONHOME") = L "PYTHONHOME" := by decide
  have hP : c_str (L "PYTHONPATH") = L "PYTHONPATH" := by decide
  have hg : ¬ (m.length = 0 ∨ m.length = MAX_PATH) := by
    intro h; rcases h with h | h
    · exact h0 h
    · exact h1 h
  unfold ConfigurePythonRuntime
  have htake : List.take m.length m.module_path = m.module_path := by
    rw [ModuleFileName.length, List.take_length]
  simp only [hg, if_false, htake, hpos, substr, List.drop_zero, SetEnvironmentVariable,
    World.emit, hdir, hpy, hH, hP, List.append_assoc, List.singleton_append, List.cons_append,
    List.nil_append]

theorem exists_position_of_separator (m : ModuleFileName)
    (hsep : ∃ c ∈ m.module_path, is_separator c = true) :
    ∃ position, find_last_of m.module_path (L "\\/") = some position := by
  cases h : find_last_of m.module_path (L "\\/") with
  | some position => exact ⟨position, rfl⟩
  | none =>
    obtain ⟨c, hc, hs⟩ := hsep
    have := (no_separator_iff _).mp ((find_last_of_eq_none _ _).mp h) c hc
    rw [this] at hs
    cases hs

theorem Env.set_set_idem (env : Env) (a b x y : wstring) :
    (((env.set a x).set b y).set a x).set b y = (env.set a x).set b y := by
  funext k
  simp only [Env.set]
  by_cases hb : k = b
  · simp [hb]
  · by_cases ha : k = a
    · simp [hb, ha]
    · simp [hb, ha]

/-! ## Runtime Discovery: the claims -/

/-- C1 (directory derivation, mixed separators): for a module path whose
reported length lies strictly between 0 and `MAX_PATH` and which holds a
separator, the path splits as `dir ++ sep :: tail` with `sep` a backslash or a
slash and no separator in `tail`, so `sep` is the last occurrence of either
kind, and `dir` is the value written to `PYTHONHOME`: the only call that names
`PYTHONHOME` passes `dir`, and the variable is bound to `dir` afterwards. -/
theorem directory_derivation (MAX_PATH : Nat) (m : ModuleFileName)
    (createDirectory : wstring → CreateDirectoryResult) (w : World)
    (h0 : 0 < m.length) (h1 : m.length < MAX_PATH)
    (hsep : ∃ c ∈ m.module_path, c = backslash ∨ c = slash) :
    ∃ dir sep tail,
      m.module_path = dir ++ sep :: tail ∧ (sep = backslash ∨ sep = slash) ∧
      (∀ c ∈ tail, c ≠ backslash ∧ c ≠ slash) ∧
      (ConfigurePythonRuntime MAX_PATH m createDirectory w).env (L "PYTHONHOME") = some dir ∧
      ∃ python_dir,
        (ConfigurePythonRuntime MAX_PATH m createDirectory w).trace
          = w.trace ++
            [Event.GetModuleFileName m.length,
             Event.SetEnvironmentVariable (L "PYTHONHOME") dir,
             Event.CreateDirectory python_dir (createDirectory python_dir),
             Event.SetEnvironmentVariable (L "PYTHONPATH") python_dir] := by
  have hsep2 : ∃ c ∈ m.module_path, is_separator c = true := by
    obtain ⟨c, hc, h⟩ := hsep
    exact ⟨c, hc, by rcases h with h | h <;> simp [is_separator, h]⟩
  obtain ⟨position, hpos⟩ := exists_position_of_separator m hsep2
  obtain ⟨sep, tail, hsplit, hmem, htail⟩ := find_last_of_eq_some _ _ _ hpos
  refine ⟨m.module_path.take position, sep, tail, hsplit, ?_, ?_, ?_, ?_⟩
  · have := (mem_separators_iff sep).mp hmem
    simpa [is_separator] using this
  · intro c hc
    have := (no_separator_iff tail).mp htail c hc
    simpa [is_separator] using this
  · rw [ConfigurePythonRuntime_pass MAX_PATH m createDirectory w position
      (Nat.pos_iff_ne_zero.mp h0) (Nat.ne_of_lt h1) hpos]
    have hne : L "PYTHONHOME" ≠ L "PYTHONPATH" := by decide
    simp [Env.set, hne]
  · rw [ConfigurePythonRuntime_pass MAX_PATH m createDirectory w position
      (Nat.pos_iff_ne_zero.mp h0) (Nat.ne_of_lt h1) hpos]
    exact ⟨_, rfl⟩

/-- Witness of C1 on `C:\Apps/demo.exe` (the later separator is the slash). -/
theorem directory_derivation_witness :
    0 < module_mixed.length ∧ module_mixed.length < MAX_PATH_windows ∧
    (∃ c ∈ module_mixed.module_path, c = backslash ∨ c = slash) ∧
    ∃ dir sep tail,
      module_mixed.module_path = dir ++ sep :: tail ∧ (sep = backslash ∨ sep = slash) ∧
      (∀ c ∈ tail, c ≠ backslash ∧ c ≠ slash) ∧
      (ConfigurePythonRuntime MAX_PATH_windows module_mixed createDirectory_ok
        World.fresh).env (L "PYTHONHOME") = some dir ∧
      ∃ python_dir,
        (ConfigurePythonRuntime MAX_PATH_windows module_mixed createDirectory_ok
          World.fresh).trace
          = World.fresh.trace ++
            [Event.GetModuleFileName module_mixed.length,
             Event.SetEnvironmentVariable (L "PYTHONHOME") dir,
             Event.CreateDirectory python_dir (createDirectory_ok python_dir),
             Event.SetEnvironmentVariable (L "PYTHONPATH") python_dir] :=
  ⟨by decide, by decide, ⟨backslash, by decide, Or.inl rfl⟩,
    directory_derivation MAX_PATH_windows module_mixed createDirectory_ok World.fresh
      (by decide) (by decide) ⟨backslash, by decide, Or.inl rfl⟩⟩

/-- C2 (script-runtime path join): whenever discovery does not abort, the
value written to `PYTHONPATH` is the value written to `PYTHONHOME` followed by
a backslash and `python-runtime`, whichever separator the split found, and the
directory creation is requested at that same string; `C:\Apps\Demo\demo.exe`
gives `C:\Apps\Demo` and `C:\Apps\Demo\python-runtime`, `/opt/demo/demo` gives
`/opt/demo` and `/opt/demo\python-runtime`. -/
theorem script_runtime_path_join :
    (∀ (MAX_PATH : Nat) (m : ModuleFileName)
        (createDirectory : wstring → CreateDirectoryResult) (w : World),
      m.length ≠ 0 → m.length ≠ MAX_PATH →
      (∃ c ∈ m.module_path, c = backslash ∨ c = slash) →
      ∃ home,
        (ConfigurePythonRuntime MAX_PATH m createDirectory w).env (L "PYTHONHOME")
          = some home ∧
        (ConfigurePythonRuntime MAX_PATH m createDirectory w).env (L "PYTHONPATH")
          = some (home ++ backslash :: L "python-runtime") ∧
        (ConfigurePythonRuntime MAX_PATH m createDirectory w).trace
          = w.trace ++
            [Event.GetModuleFileName m.length,
             Event.SetEnvironmentVariable (L "PYTHONHOME") home,
             Event.CreateDirectory (home ++ backslash :: L "python-runtime")
               (createDirectory (home ++ backslash :: L "python-runtime")),
             Event.SetEnvironmentVariable (L "PYTHONPATH")
               (home ++ backslash :: L "python-runtime")]) ∧
    (∀ (createDirectory : wstring → CreateDirectoryResult) (w : World),
      (ConfigurePythonRuntime MAX_PATH_windows module_S1 createDirectory w).env
          (L "PYTHONHOME") = some (L "C:\\Apps\\Demo") ∧
      (ConfigurePythonRuntime MAX_PATH_windows module_S1 createDirectory w).env
          (L "PYTHONPATH") = some (L "C:\\Apps\\Demo\\python-runtime") ∧
      (ConfigurePythonRuntime MAX_PATH_windows module_S1 createDirectory w).trace
        = w.trace ++
          [Event.GetModuleFileName 21,
           Event.SetEnvironmentVariable (L "PYTHONHOME") (L "C:\\Apps\\Demo"),
           Event.CreateDirectory (L "C:\\Apps\\Demo\\python-runtime")
             (createDirectory (L "C:\\Apps\\Demo\\python-runtime")),
           Event.SetEnvironmentVariable (L "PYTHONPATH")
             (L "C:\\Apps\\Demo\\python-runtime")]) ∧
    (∀ (createDirectory : wstring → CreateDirectoryResult) (w : World),
      (ConfigurePythonRuntime MAX_PATH_windows module_S2 createDirectory w).env
          (L "PYTHONHOME") = some (L "/opt/demo") ∧
      (ConfigurePythonRuntime MAX_PATH_windows module_S2 createDirectory w).env
          (L "PYTHONPATH") = some (L "/opt/demo\\python-runtime") ∧
      (ConfigurePythonRuntime MAX_PATH_windows module_S2 createDirectory w).trace
        = w.trace ++
          [Event.GetModuleFileName 14,
           Event.SetEnvironmentVariable (L "PYTHONHOME") (L "/opt/demo"),
           Event.CreateDirectory (L "/opt/demo\\python-runtime")
             (createDirectory (L "/opt/demo\\python-runtime")),
           Event.SetEnvironmentVariable (L "PYTHONPATH")
             (L "/opt/demo\\python-runtime")]) := by
  have hne : L "PYTHONHOME" ≠ L "PYTHONPATH" := by decide
  have hseg : L "\\python-runtime" = backslash :: L "python-runtime" := by decide
  refine ⟨?_, ?_, ?_⟩
  · intro MAX_PATH m createDirectory w h0 h1 hsep
    have hsep2 : ∃ c ∈ m.module_path, is_separator c = true := by
      obtain ⟨c, hc, h⟩ := hsep
      exact ⟨c, hc, by rcases h with h | h <;> simp [is_separator, h]⟩
    obtain ⟨position, hpos⟩ := exists_position_of_separator m hsep2
    rw [ConfigurePythonRuntime_pass MAX_PATH m createDirectory w position h0 h1 hpos, hseg]
    exact ⟨m.module_path.take position, by simp [Env.set, hne], by simp [Env.set], rfl⟩
  · intro createDirectory w
    rw [ConfigurePythonRuntime_pass MAX_PATH_windows module_S1 createDirectory w 12
      (by decide) (by decide) (by decide)]
    have ht : List.take 12 module_S1.module_path = L "C:\\Apps\\Demo" := by decide
    have hp : L "C:\\Apps\\Demo" ++ L "\\python-runtime" = L "C:\\Apps\\Demo\\python-runtime" := by
      decide
    have hl : module_S1.length = 21 := by decide
    rw [ht, hp, hl]
    exact ⟨by simp [Env.set, hne], by simp [Env.set], rfl⟩
  · intro createDirectory w
    rw [ConfigurePythonRuntime_pass MAX_PATH_windows module_S2 createDirectory w 9
      (by decide) (by decide) (by decide)]
    have ht : List.take 9 module_S2.module_path = L "/opt/demo" := by decide
    have hp : L "/opt/demo" ++ L "\\python-runtime" = L "/opt/demo\\python-runtime" := by
      decide
    have hl : module_S2.length = 14 := by decide
    rw [ht, hp, hl]
    exact ⟨by simp [Env.set, hne], by simp [Env.set], rfl⟩

/-- Witness of C2: the general statement applied to `/opt/demo/demo`. -/
theorem script_runtime_path_join_witness :
    module_S2.length ≠ 0 ∧ module_S2.length ≠ MAX_PATH_windows ∧
    (∃ c ∈ module_S2.module_path, c = backslash ∨ c = slash) ∧
    ∃ home,
      (ConfigurePythonRuntime MAX_PATH_windows module_S2 createDirectory_exists
        World.fresh).env (L "PYTHONHOME") = some home ∧
      (ConfigurePythonRuntime MAX_PATH_windows module_S2 createDirectory_exists
        World.fresh).env (L "PYTHONPATH") = some (home ++ backslash :: L "python-runtime") ∧
      (ConfigurePythonRuntime MAX_PATH_windows module_S2 createDirectory_exists
        World.fresh).trace
        = World.fresh.trace ++
          [Event.GetModuleFileName module_S2.length,
           Event.SetEnvironmentVariable (L "PYTHONHOME") home,
           Event.CreateDirectory (home ++ backslash :: L "python-runtime")
             (createDirectory_exists (home ++ backslash :: L "python-runtime")),
           Event.SetEnvironmentVariable (L "PYTHONPATH")
             (home ++ backslash :: L "python-runtime")] :=
  ⟨by decide, by decide, ⟨slash, by decide, Or.inr rfl⟩,
    script_runtime_path_join.1 MAX_PATH_windows module_S2 createDirectory_exists World.fresh
      (by decide) (by decide) ⟨slash, by decide, Or.inr rfl⟩⟩

/-- C3 (silent-abort guards): when the reported length is zero, or equals
`MAX_PATH`, or the path holds neither a backslash nor a slash, the procedure
returns having made no call but the path query: the environment is unchanged
and no directory creation is requested; in every other case `PYTHONHOME` and
`PYTHONPATH` are both written. -/
theorem silent_abort_guards (MAX_PATH : Nat) (m : ModuleFileName)
    (createDirectory : wstring → CreateDirectoryResult) (w : World) :
    ((m.length = 0 ∨ m.length = MAX_PATH ∨
        ∀ c ∈ m.module_path, c ≠ backslash ∧ c ≠ slash) →
      (ConfigurePythonRuntime MAX_PATH m createDirectory w).env = w.env ∧
      (ConfigurePythonRuntime MAX_PATH m createDirectory w).trace
        = w.trace ++ [Event.GetModuleFileName m.length]) ∧
    (¬ (m.length = 0 ∨ m.length = MAX_PATH ∨
        ∀ c ∈ m.module_path, c ≠ backslash ∧ c ≠ slash) →
      ∃ home python_dir,
        (ConfigurePythonRuntime MAX_PATH m createDirectory w).env (L "PYTHONHOME")
          = some home ∧
        (ConfigurePythonRuntime MAX_PATH m createDirectory w).env (L "PYTHONPATH")
          = some python_dir ∧
        (ConfigurePythonRuntime MAX_PATH m createDirectory w).trace
          = w.trace ++
            [Event.GetModuleFileName m.length,
             Event.SetEnvironmentVariable (L "PYTHONHOME") home,
             Event.CreateDirectory python_dir (createDirectory python_dir),
             Event.SetEnvironmentVariable (L "PYTHONPATH") python_dir]) := by
  have hne : L "PYTHONHOME" ≠ L "PYTHONPATH" := by decide
  have hconv : (∀ c ∈ m.module_path, c ≠ backslash ∧ c ≠ slash) ↔
      ∀ c ∈ m.module_path, is_separator c = false := by
    simp [is_separator]
  constructor
  · intro h
    rw [hconv] at h
    rw [ConfigurePythonRuntime_abort MAX_PATH m createDirectory w h]
    exact ⟨rfl, rfl⟩
  · intro h
    rw [hconv] at h
    have h0 : m.length ≠ 0 := fun e => h (Or.inl e)
    have h1 : m.length ≠ MAX_PATH := fun e => h (Or.inr (Or.inl e))
    have hsep : ∃ c ∈ m.module_path, is_separator c = true := by
      by_contra hno
      apply h
      right; right
      intro c hc
      cases hs : is_separator c with
      | false => rfl
      | true => exact absurd ⟨c, hc, hs⟩ hno
    obtain ⟨position, hpos⟩ := exists_position_of_separator m hsep
    rw [ConfigurePythonRuntime_pass MAX_PATH m createDirectory w position h0 h1 hpos]
    exact ⟨_, _, by simp [Env.set, hne], by simp [Env.set], rfl⟩

set_option maxRecDepth 8000 in
/-- Witness of C3: `demo.exe` (no separator), a path of `MAX_PATH` units and
the empty answer leave the fresh state with the path query alone, and
`C:\Apps\Demo\demo.exe` passes the guards. -/
theorem silent_abort_guards_witness :
    ((ConfigurePythonRuntime MAX_PATH_windows module_S3 createDirectory_ok World.fresh).env
        = World.fresh.env ∧
      (ConfigurePythonRuntime MAX_PATH_windows module_S3 createDirectory_ok World.fresh).trace
        = World.fresh.trace ++ [Event.GetModuleFileName module_S3.length]) ∧
    ((ConfigurePythonRuntime MAX_PATH_windows module_truncated createDirectory_ok
        World.fresh).env = World.fresh.env ∧
      (ConfigurePythonRuntime MAX_PATH_windows module_truncated createDirectory_ok
        World.fresh).trace
        = World.fresh.trace ++ [Event.GetModuleFileName module_truncated.length]) ∧
    ((ConfigurePythonRuntime MAX_PATH_windows module_failed createDirectory_ok
        World.fresh).env = World.fresh.env ∧
      (ConfigurePythonRuntime MAX_PATH_windows module_failed createDirectory_ok
        World.fresh).trace
        = World.fresh.trace ++ [Event.GetModuleFileName module_failed.length]) ∧
    ∃ home python_dir,
      (ConfigurePythonRuntime MAX_PATH_windows module_S1 createDirectory_ok World.fresh).env
        (L "PYTHONHOME") = some home ∧
      (ConfigurePythonRuntime MAX_PATH_windows module_S1 createDirectory_ok World.fresh).env
        (L "PYTHONPATH") = some python_dir ∧
      (ConfigurePythonRuntime MAX_PATH_windows module_S1 createDirectory_ok World.fresh).trace
        = World.fresh.trace ++
          [Event.GetModuleFileName module_S1.length,
           Event.SetEnvironmentVariable (L "PYTHONHOME") home,
           Event.CreateDirectory python_dir (createDirectory_ok python_dir),
           Event.SetEnvironmentVariable (L "PYTHONPATH") python_dir] :=
  ⟨(silent_abort_guards MAX_PATH_windows module_S3 createDirectory_ok World.fresh).1
      (Or.inr (Or.inr (by decide))),
    (silent_abort_guards MAX_PATH_windows module_truncated createDirectory_ok World.fresh).1
      (Or.inr (Or.inl (by decide))),
    (silent_abort_guards MAX_PATH_windows module_failed createDirectory_ok World.fresh).1
      (Or.inl (by decide)),
    (silent_abort_guards MAX_PATH_windows module_S1 createDirectory_ok World.fresh).2
      (by decide)⟩

/-- C7 (idempotent environment seeding): for every initial state and every
module path, reported alike on both invocations, running
`ConfigurePythonRuntime` twice leaves the same environment as running it once,
so `PYTHONHOME` and `PYTHONPATH` are bound alike (or both untouched), whatever
`CreateDirectory` answers on either invocation. -/
theorem idempotent_environment_seeding (MAX_PATH : Nat) (m : ModuleFileName)
    (createDirectory₁ createDirectory₂ : wstring → CreateDirectoryResult) (w : World) :
    (ConfigurePythonRuntime MAX_PATH m createDirectory₂
        (ConfigurePythonRuntime MAX_PATH m createDirectory₁ w)).env
      = (ConfigurePythonRuntime MAX_PATH m createDirectory₁ w).env ∧
    (ConfigurePythonRuntime MAX_PATH m createDirectory₂
        (ConfigurePythonRuntime MAX_PATH m createDirectory₁ w)).env (L "PYTHONHOME")
      = (ConfigurePythonRuntime MAX_PATH m createDirectory₁ w).env (L "PYTHONHOME") ∧
    (ConfigurePythonRuntime MAX_PATH m createDirectory₂
        (ConfigurePythonRuntime MAX_PATH m createDirectory₁ w)).env (L "PYTHONPATH")
      = (ConfigurePythonRuntime MAX_PATH m createDirectory₁ w).env (L "PYTHONPATH") := by
  have henv : (ConfigurePythonRuntime MAX_PATH m createDirectory₂
        (ConfigurePythonRuntime MAX_PATH m createDirectory₁ w)).env
      = (ConfigurePythonRuntime MAX_PATH m createDirectory₁ w).env := by
    by_cases h : m.length = 0 ∨ m.length = MAX_PATH ∨
        ∀ c ∈ m.module_path, is_separator c = false
    · rw [ConfigurePythonRuntime_abort MAX_PATH m createDirectory₂ _ h,
        ConfigurePythonRuntime_abort MAX_PATH m createDirectory₁ _ h]
      rfl
    · have h0 : m.length ≠ 0 := fun e => h (Or.inl e)
      have h1 : m.length ≠ MAX_PATH := fun e => h (Or.inr (Or.inl e))
      have hsep : ∃ c ∈ m.module_path, is_separator c = true := by
        by_contra hno
        apply h
        right; right
        intro c hc
        cases hs : is_separator c with
        | false => rfl
        | true => exact absurd ⟨c, hc, hs⟩ hno
      obtain ⟨position, hpos⟩ := exists_position_of_separator m hsep
      rw [ConfigurePythonRuntime_pass MAX_PATH m createDirectory₂ _ position h0 h1 hpos,
        ConfigurePythonRuntime_pass MAX_PATH m createDirectory₁ _ position h0 h1 hpos]
      exact Env.set_set_idem _ _ _ _ _
  exact ⟨henv, by rw [henv], by rw [henv]⟩

/-- C8 (directory-creation tolerance): the answer of `CreateDirectory` has no
influence on the environment, and when the guards are passed `PYTHONPATH` is
written with one and the same value, the path at which the creation was
requested, whether the request succeeds, fails because the directory exists,
or fails otherwise. -/
theorem directory_creation_tolerance (MAX_PATH : Nat) (m : ModuleFileName) (w : World) :
    (∀ createDirectory₁ createDirectory₂ : wstring → CreateDirectoryResult,
      (ConfigurePythonRuntime MAX_PATH m createDirectory₁ w).env
        = (ConfigurePythonRuntime MAX_PATH m createDirectory₂ w).env) ∧
    (m.length ≠ 0 → m.length ≠ MAX_PATH →
      (∃ c ∈ m.module_path, c = backslash ∨ c = slash) →
      ∃ home python_dir, ∀ createDirectory : wstring → CreateDirectoryResult,
        (ConfigurePythonRuntime MAX_PATH m createDirectory w).env (L "PYTHONHOME")
          = some home ∧
        (ConfigurePythonRuntime MAX_PATH m createDirectory w).env (L "PYTHONPATH")
          = some python_dir ∧
        (ConfigurePythonRuntime MAX_PATH m createDirectory w).trace
          = w.trace ++
            [Event.GetModuleFileName m.length,
             Event.SetEnvironmentVariable (L "PYTHONHOME") home,
             Event.CreateDirectory python_dir (createDirectory python_dir),
             Event.SetEnvironmentVariable (L "PYTHONPATH") python_dir]) := by
  have hne : L "PYTHONHOME" ≠ L "PYTHONPATH" := by decide
  constructor
  · intro createDirectory₁ createDirectory₂
    by_cases h : m.length = 0 ∨ m.length = MAX_PATH ∨
        ∀ c ∈ m.module_path, is_separator c = false
    · rw [ConfigurePythonRuntime_abort MAX_PATH m createDirectory₂ _ h,
        ConfigurePythonRuntime_abort MAX_PATH m createDirectory₁ _ h]
    · have h0 : m.length ≠ 0 := fun e => h (Or.inl e)
      have h1 : m.length ≠ MAX_PATH := fun e => h (Or.inr (Or.inl e))
      have hsep : ∃ c ∈ m.module_path, is_separator c = true := by
        by_contra hno
        apply h
        right; right
        intro c hc
        cases hs : is_separator c with
        | false => rfl
        | true => exact absurd ⟨c, hc, hs⟩ hno
      obtain ⟨position, hpos⟩ := exists_position_of_separator m hsep
      rw [ConfigurePythonRuntime_pass MAX_PATH m createDirectory₂ _ position h0 h1 hpos,
        ConfigurePythonRuntime_pass MAX_PATH m createDirectory₁ _ position h0 h1 hpos]
  · intro h0 h1 hsep
    have hsep2 : ∃ c ∈ m.module_path, is_separator c = true := by
      obtain ⟨c, hc, h⟩ := hsep
      exact ⟨c, hc, by rcases h with h | h <;> simp [is_separator, h]⟩
    obtain ⟨position, hpos⟩ := exists_position_of_separator m hsep2
    refine ⟨m.module_path.take position,
      m.module_path.take position ++ L "\\python-runtime", ?_⟩
    intro createDirectory
    rw [ConfigurePythonRuntime_pass MAX_PATH m createDirectory w position h0 h1 hpos]
    exact ⟨by simp [Env.set, hne], by simp [Env.set], rfl⟩

/-- Witness of C8 on `C:\Apps\Demo\demo.exe`: one value of `PYTHONPATH` for
every answer of `CreateDirectory`. -/
theorem directory_creation_tolerance_witness :
    module_S1.length ≠ 0 ∧ module_S1.length ≠ MAX_PATH_windows ∧
    (∃ c ∈ module_S1.module_path, c = backslash ∨ c = slash) ∧
    ∃ home python_dir, ∀ createDirectory : wstring → CreateDirectoryResult,
      (ConfigurePythonRuntime MAX_PATH_windows module_S1 createDirectory World.fresh).env
        (L "PYTHONHOME") = some home ∧
      (ConfigurePythonRuntime MAX_PATH_windows module_S1 createDirectory World.fresh).env
        (L "PYTHONPATH") = some python_dir ∧
      (ConfigurePythonRuntime MAX_PATH_windows module_S1 createDirectory World.fresh).trace
        = World.fresh.trace ++
          [Event.GetModuleFileName module_S1.length,
           Event.SetEnvironmentVariable (L "PYTHONHOME") home,
           Event.CreateDirectory python_dir (createDirectory python_dir),
           Event.SetEnvironmentVariable (L "PYTHONPATH") python_dir] :=
  ⟨by decide, by decide, ⟨backslash, by decide, Or.inl rfl⟩,
    (directory_creation_tolerance MAX_PATH_windows module_S1 World.fresh).2
      (by decide) (by decide) ⟨backslash, by decide, Or.inl rfl⟩⟩

/-- C4 (absolute ExecutableDirectory), the code at an executable placed in a
root directory: for `C:\demo.exe`, an absolute path that passes the guards,
the value written to `PYTHONHOME` is `C:`, which is not an absolute path and
differs from the parent directory `C:\`; for `/demo` it is the empty string. -/
theorem home_of_root_level_executable
    (createDirectory : wstring → CreateDirectoryResult) (w : World) :
    (spec_is_absolute module_root.module_path = true ∧
      (ConfigurePythonRuntime MAX_PATH_windows module_root createDirectory w).env
        (L "PYTHONHOME") = some (L "C:") ∧
      (ConfigurePythonRuntime MAX_PATH_windows module_root createDirectory w).trace
        = w.trace ++
          [Event.GetModuleFileName 11,
           Event.SetEnvironmentVariable (L "PYTHONHOME") (L "C:"),
           Event.CreateDirectory (L "C:\\python-runtime")
             (createDirectory (L "C:\\python-runtime")),
           Event.SetEnvironmentVariable (L "PYTHONPATH") (L "C:\\python-runtime")] ∧
      spec_is_absolute (L "C:") = false ∧ L "C:" ≠ L "C:\\") ∧
    (spec_is_absolute module_slash_root.module_path = true ∧
      (ConfigurePythonRuntime MAX_PATH_windows module_slash_root createDirectory w).env
        (L "PYTHONHOME") = some [] ∧
      spec_is_absolute [] = false) := by
  have hne : L "PYTHONHOME" ≠ L "PYTHONPATH" := by decide
  constructor
  · rw [ConfigurePythonRuntime_pass MAX_PATH_windows module_root createDirectory w 2
      (by decide) (by decide) (by decide)]
    have ht : List.take 2 module_root.module_path = L "C:" := by decide
    have hp : L "C:" ++ L "\\python-runtime" = L "C:\\python-runtime" := by decide
    have hl : module_root.length = 11 := by decide
    rw [ht, hp, hl]
    exact ⟨by decide, by simp [Env.set, hne], rfl, by decide, by decide⟩
  · rw [ConfigurePythonRuntime_pass MAX_PATH_windows module_slash_root createDirectory w 0
      (by decide) (by decide) (by decide)]
    exact ⟨by decide, by simp [Env.set, hne], by decide⟩

/-! ## Lemmas on the message loop -/

theorem MessageLoop_nonzero (before rest : List (Int × MSG)) (w : World)
    (h : ∀ x ∈ before, x.1 ≠ 0) :
    MessageLoop (before ++ rest) w
      = MessageLoop rest { env := w.env, trace := w.trace ++ pumped before } := by
  induction before generalizing w with
  | nil => simp [pumped]
  | cons x before ih =>
    obtain ⟨ret, msg⟩ := x
    have hret : ret ≠ 0 := h (ret, msg) (List.mem_cons_self _ _)
    have hrest : ∀ x ∈ before, x.1 ≠ 0 := fun x hx => h x (List.mem_cons_of_mem _ hx)
    rw [List.cons_append, MessageLoop]
    simp only [hret, ne_eq, not_false_eq_true, if_true]
    rw [ih _ hrest]
    simp [World.emit, pumped]

theorem MessageLoop_zero (msg : MSG) (rest : List (Int × MSG)) (w : World) :
    MessageLoop ((0, msg) :: rest) w
      = ({ env := w.env, trace := w.trace ++ [Event.GetMessage 0] }, true) := by
  simp [MessageLoop, World.emit]

theorem pumped_isPump (answers : List (Int × MSG)) : ∀ e ∈ pumped answers, e.isPump = true := by
  induction answers with
  | nil => simp [pumped]
  | cons x answers ih =>
    obtain ⟨ret, msg⟩ := x
    intro e he
    simp only [pumped, List.mem_cons] at he
    rcases he with he | he | he | he
    · subst he; rfl
    · subst he; rfl
    · subst he; rfl
    · exact ih e he

theorem split_at_first_zero (answers : List (Int × MSG)) :
    (∀ x ∈ answers, x.1 ≠ 0) ∨
    ∃ before msg rest, answers = before ++ (0, msg) :: rest ∧ ∀ x ∈ before, x.1 ≠ 0 := by
  induction answers with
  | nil => left; simp
  | cons x answers ih =>
    obtain ⟨ret, msg⟩ := x
    by_cases hret : ret = 0
    · right
      subst hret
      exact ⟨[], msg, answers, rfl, by simp⟩
    · rcases ih with ih | ⟨before, msg₀, rest, heq, hb⟩
      · left
        intro x hx
        rcases List.mem_cons.mp hx with hx | hx
        · subst hx; exact hret
        · exact ih x hx
      · right
        refine ⟨(ret, msg) :: before, msg₀, rest, by rw [heq]; rfl, ?_⟩
        intro x hx
        rcases List.mem_cons.mp hx with hx | hx
        · subst hx; exact hret
        · exact hb x hx

/-! ## Lemmas on `wWinMain` -/

/-- The calls of Runtime Discovery: whatever state it starts in, the procedure
appends one list of discovery events, the path query among them. -/
theorem ConfigurePythonRuntime_shape (MAX_PATH : Nat) (m : ModuleFileName)
    (createDirectory : wstring → CreateDirectoryResult) :
    ∃ d, (∀ e ∈ d, e.isDiscovery = true) ∧ Event.GetModuleFileName m.length ∈ d ∧
      ∀ w, (ConfigurePythonRuntime MAX_PATH m createDirectory w).trace = w.trace ++ d := by
  by_cases h : m.length = 0 ∨ m.length = MAX_PATH ∨
      ∀ c ∈ m.module_path, is_separator c = false
  · refine ⟨[Event.GetModuleFileName m.length], ?_, by simp, ?_⟩
    · intro e he
      simp only [List.mem_singleton] at he
      subst he; rfl
    · intro w
      rw [ConfigurePythonRuntime_abort MAX_PATH m createDirectory w h]
      rfl
  · have h0 : m.length ≠ 0 := fun e => h (Or.inl e)
    have h1 : m.length ≠ MAX_PATH := fun e => h (Or.inr (Or.inl e))
    have hsep : ∃ c ∈ m.module_path, is_separator c = true := by
      by_contra hno
      apply h
      right; right
      intro c hc
      cases hs : is_separator c with
      | false => rfl
      | true => exact absurd ⟨c, hc, hs⟩ hno
    obtain ⟨position, hpos⟩ := exists_position_of_separator m hsep
    refine ⟨_, ?_, ?_, fun w => by
      rw [ConfigurePythonRuntime_pass MAX_PATH m createDirectory w position h0 h1 hpos]⟩
    · intro e he
      simp only [List.mem_cons, List.mem_singleton, List.not_mem_nil, or_false] at he
      rcases he with he | he | he | he <;> (subst he; rfl)
    · simp

/-- The message loop adds one list of pump events whatever state it starts
in, and is left exactly when some retrieval returns zero. -/
theorem MessageLoop_uniform (answers : List (Int × MSG)) :
    ∃ p left, (∀ e ∈ p, e.isPump = true) ∧ (left = true ↔ ∃ x ∈ answers, x.1 = 0) ∧
      ∀ w : World, MessageLoop answers w = ({ env := w.env, trace := w.trace ++ p }, left) := by
  rcases split_at_first_zero answers with h | ⟨before, msg, rest, heq, hb⟩
  · refine ⟨pumped answers, false, pumped_isPump answers, ?_, ?_⟩
    · constructor
      · intro hf; cases hf
      · intro ⟨x, hx, h0⟩; exact absurd h0 (h x hx)
    · intro w
      have := MessageLoop_nonzero answers [] w h
      rw [List.append_nil] at this
      rw [this]
      rfl
  · subst heq
    refine ⟨pumped before ++ [Event.GetMessage 0], true, ?_, ?_, ?_⟩
    · intro e he
      rcases List.mem_append.mp he with he | he
      · exact pumped_isPump before e he
      · simp only [List.mem_singleton] at he
        subst he; rfl
    · constructor
      · intro _
        exact ⟨(0, msg), by simp, rfl⟩
      · intro _; rfl
    · intro w
      rw [MessageLoop_nonzero before _ w hb, MessageLoop_zero]
      simp

theorem wWinMain_shape (MAX_PATH : Nat) (os : Answers) (env : Env) :
    ∃ c d b,
      (wWinMain MAX_PATH os env).world.trace
        = c ++ Event.CoInitializeEx :: d ++
          [Event.DartProject (L "data"), Event.GetCommandLineArguments,
           Event.set_dart_entrypoint_arguments os.GetCommandLineArguments,
           Event.FlutterWindow
             { path := L "data", dart_entrypoint_arguments := os.GetCommandLineArguments },
           Event.Create (L "flutter_application_1") (10, 10) (1280, 720) os.Create] ++ b ∧
      (∀ e ∈ c, e.isConsole = true) ∧
      (∀ e ∈ d, e.isDiscovery = true) ∧
      Event.GetModuleFileName os.GetModuleFileName.length ∈ d ∧
      ((os.Create = false ∧ b = [] ∧
          (wWinMain MAX_PATH os env).exit_status = some EXIT_FAILURE) ∨
        (os.Create = true ∧ ∃ p, (∀ e ∈ p, e.isPump = true) ∧
          (((¬ ∃ x ∈ os.GetMessage, x.1 = 0) ∧ b = Event.SetQuitOnClose true :: p ∧
              (wWinMain MAX_PATH os env).exit_status = none) ∨
            ((∃ x ∈ os.GetMessage, x.1 = 0) ∧
              b = Event.SetQuitOnClose true :: p ++ [Event.CoUninitialize] ∧
              (wWinMain MAX_PATH os env).exit_status = some EXIT_SUCCESS)))) := by
  obtain ⟨d, hdisc, hgmf, hd⟩ :=
    ConfigurePythonRuntime_shape MAX_PATH os.GetModuleFileName os.CreateDirectory
  obtain ⟨p, left, hp, hleft, hML⟩ := MessageLoop_uniform os.GetMessage
  refine ⟨if os.AttachConsole then [Event.AttachConsole os.AttachConsole]
      else if os.IsDebuggerPresent then
        [Event.AttachConsole os.AttachConsole, Event.IsDebuggerPresent os.IsDebuggerPresent,
          Event.CreateAndAttachConsole]
      else [Event.AttachConsole os.AttachConsole, Event.IsDebuggerPresent os.IsDebuggerPresent],
    d,
    if os.Create then
      Event.SetQuitOnClose true :: p ++ (if left then [Event.CoUninitialize] else [])
    else [], ?_, ?_, hdisc, hgmf, ?_⟩
  · unfold wWinMain
    simp only [hML, World.emit, hd, DartProject.set_dart_entrypoint_arguments]
    cases hA : os.AttachConsole <;> cases hD : os.IsDebuggerPresent <;>
      cases hC : os.Create <;> cases left <;> simp [hd]
  · apply List.all_eq_true.mp
    cases os.AttachConsole <;> cases os.IsDebuggerPresent <;> rfl
  · unfold wWinMain
    simp only [hML, World.emit, hd, DartProject.set_dart_entrypoint_arguments]
    cases hC : os.Create
    · left
      simp
    · right
      refine ⟨rfl, p, hp, ?_⟩
      cases left
      · left
        refine ⟨?_, by simp, by simp⟩
        intro hz
        have := hleft.mpr hz
        cases this
      · right
        exact ⟨hleft.mp rfl, by simp, by simp⟩

theorem occursBefore_of_split (p q : Event → Bool) (t a b : List Event) (ht : t = a ++ b)
    (ha : ∀ e ∈ a, q e = false) (hb : ∀ e ∈ b, p e = false) : occursBefore p q t := by
  intro i j e₁ e₂ h₁ h₂ hp hq
  subst ht
  by_cases hi : i < a.length
  · by_cases hj : j < a.length
    · rw [List.getElem?_append_left hj] at h₂
      have := ha e₂ (List.getElem?_mem h₂)
      rw [this] at hq
      cases hq
    · omega
  · rw [List.getElem?_append_right (Nat.le_of_not_lt hi)] at h₁
    have := hb e₁ (List.getElem?_mem h₁)
    rw [this] at hp
    cases hp

theorem count_eq_zero_of_kind (l : List Event) (a : Event) (k : Event → Bool)
    (h : ∀ e ∈ l, k e = true) (ha : k a = false) : l.count a = 0 := by
  apply List.count_eq_zero_of_not_mem
  intro hmem
  rw [h a hmem] at ha
  cases ha

theorem kinds_of_console (e : Event) (h : e.isConsole = true) :
    e.isPump = false ∧ e.isCoUninitialize = false ∧ e.isCoInitializeEx = false ∧
    e.isCreate = false ∧ e.isGetMessage = false ∧ e.isDiscovery = false ∧
    e.isDispatchMessage = false ∧ e.isProject = false := by
  cases e <;> simp_all [Event.isConsole, Event.isPump, Event.isCoUninitialize,
    Event.isCoInitializeEx, Event.isCreate, Event.isGetMessage, Event.isDiscovery,
    Event.isDispatchMessage, Event.isProject]

theorem kinds_of_discovery (e : Event) (h : e.isDiscovery = true) :
    e.isPump = false ∧ e.isCoUninitialize = false ∧ e.isCoInitializeEx = false ∧
    e.isCreate = false ∧ e.isGetMessage = false ∧ e.isConsole = false ∧
    e.isDispatchMessage = false ∧ e.isProject = false := by
  cases e <;> simp_all [Event.isConsole, Event.isPump, Event.isCoUninitialize,
    Event.isCoInitializeEx, Event.isCreate, Event.isGetMessage, Event.isDiscovery,
    Event.isDispatchMessage, Event.isProject]

theorem kinds_of_pump (e : Event) (h : e.isPump = true) :
    e.isDiscovery = false ∧ e.isCoUninitialize = false ∧ e.isCoInitializeEx = false ∧
    e.isCreate = false ∧ e.isConsole = false ∧ e.isProject = false := by
  cases e <;> simp_all [Event.isConsole, Event.isPump, Event.isCoUninitialize,
    Event.isCoInitializeEx, Event.isCreate, Event.isGetMessage, Event.isDiscovery,
    Event.isDispatchMessage, Event.isProject]

theorem wWinMain_project (MAX_PATH : Nat) (os : Answers) (env : Env) :
    (wWinMain MAX_PATH os env).project
      = { path := L "data", dart_entrypoint_arguments := os.GetCommandLineArguments } := by
  obtain ⟨p, left, _, _, hML⟩ := MessageLoop_uniform os.GetMessage
  unfold wWinMain
  simp only [hML, DartProject.set_dart_entrypoint_arguments]
  cases os.Create <;> cases left <;> rfl

/-! ## The entry point: the claims -/

/-- The message pump on retrievals that never fail: when every result before
the first zero result is positive, the loop is left at that zero result,
nothing is translated or dispatched at or after it, and every earlier message
is translated then dispatched once, in retrieval order. -/
theorem MessageLoop_positive_then_zero (before : List (Int × MSG)) (msg : MSG)
    (rest : List (Int × MSG)) (w : World) (h : ∀ x ∈ before, 0 < x.1) :
    (MessageLoop (before ++ (0, msg) :: rest) w).2 = true ∧
    (MessageLoop (before ++ (0, msg) :: rest) w).1.env = w.env ∧
    (MessageLoop (before ++ (0, msg) :: rest) w).1.trace
      = w.trace ++ pumped before ++ [Event.GetMessage 0] := by
  have h' : ∀ x ∈ before, x.1 ≠ 0 := fun x hx => Int.ne_of_gt (h x hx)
  rw [MessageLoop_nonzero before _ w h', MessageLoop_zero]
  exact ⟨rfl, rfl, rfl⟩

/-- C5 (message pump termination), the code at a failed retrieval: when the
first `GetMessage` returns `-1` and the second returns zero, the loop is not
left at the first retrieval as the claim requires; the content of `msg` after
the failed call is translated and dispatched, and the loop is left only at the
second retrieval.  When every retrieval returns `-1` the loop is never left
and each failed retrieval is followed by a translation and a dispatch. -/
theorem pump_continues_after_failed_retrieval :
    (MessageLoop [(-1, 7), (0, 18)] World.fresh).1.trace
      = [Event.GetMessage (-1), Event.TranslateMessage 7, Event.DispatchMessage 7,
         Event.GetMessage 0] ∧
    ¬ pump_ends_at_first_non_positive [(-1, 7), (0, 18)] ∧
    (MessageLoop [(-1, 7), (-1, 7), (-1, 7)] World.fresh).2 = false ∧
    (MessageLoop [(-1, 7), (-1, 7), (-1, 7)] World.fresh).1.trace
      = [Event.GetMessage (-1), Event.TranslateMessage 7, Event.DispatchMessage 7,
         Event.GetMessage (-1), Event.TranslateMessage 7, Event.DispatchMessage 7,
         Event.GetMessage (-1), Event.TranslateMessage 7, Event.DispatchMessage 7] := by
  refine ⟨by decide, ?_, by decide, by decide⟩
  intro h
  have := (h [] (-1) 7 [(0, 18)] World.fresh rfl (by simp) (by decide)).2.2
  revert this
  decide

/-- C6 (exit-status contract): `wWinMain` returns a nonzero status exactly
when `Create` reports failure; the status is then `EXIT_FAILURE` and the run
holds no message retrieval, translation or dispatch and no apartment release;
when `Create` succeeds and some retrieval returns zero, so that the pump is
left, the status is 0. -/
theorem exit_status_contract (MAX_PATH : Nat) (os : Answers) (env : Env) :
    ((∃ n, (wWinMain MAX_PATH os env).exit_status = some n ∧ n ≠ 0) ↔ os.Create = false) ∧
    (os.Create = false →
      (wWinMain MAX_PATH os env).exit_status = some EXIT_FAILURE ∧ EXIT_FAILURE ≠ 0 ∧
      ∀ e ∈ (wWinMain MAX_PATH os env).world.trace,
        e.isPump = false ∧ e.isCoUninitialize = false) ∧
    (os.Create = true → (∃ x ∈ os.GetMessage, x.1 = 0) →
      (wWinMain MAX_PATH os env).exit_status = some 0) := by
  obtain ⟨c, d, b, ht, hc, hd, _, hcase⟩ := wWinMain_shape MAX_PATH os env
  rcases hcase with ⟨hC, hb, hex⟩ | ⟨hC, p, hp, ⟨hz, hb, hex⟩ | ⟨hz, hb, hex⟩⟩
  · refine ⟨⟨fun _ => hC, fun _ => ⟨EXIT_FAILURE, hex, by decide⟩⟩, ?_, ?_⟩
    · intro _
      refine ⟨hex, by decide, ?_⟩
      intro e he
      rw [ht, hb] at he
      have he : e ∈ c ∨ e = Event.CoInitializeEx ∨ e ∈ d ∨
          e ∈ [Event.DartProject (L "data"), Event.GetCommandLineArguments,
            Event.set_dart_entrypoint_arguments os.GetCommandLineArguments,
            Event.FlutterWindow
              { path := L "data", dart_entrypoint_arguments := os.GetCommandLineArguments },
            Event.Create (L "flutter_application_1") (10, 10) (1280, 720) os.Create] := by
        simp only [List.mem_append, List.mem_cons, List.not_mem_nil, or_false] at he ⊢
        tauto
      rcases he with he | he | he | he
      · exact ⟨(kinds_of_console e (hc e he)).1, (kinds_of_console e (hc e he)).2.1⟩
      · subst he; exact ⟨rfl, rfl⟩
      · exact ⟨(kinds_of_discovery e (hd e he)).1, (kinds_of_discovery e (hd e he)).2.1⟩
      · simp only [List.mem_cons, List.not_mem_nil, or_false] at he
        rcases he with he | he | he | he | he <;> (subst he; exact ⟨rfl, rfl⟩)
    · intro hT
      rw [hC] at hT
      cases hT
  · refine ⟨⟨?_, ?_⟩, ?_, ?_⟩
    · intro ⟨n, hn, _⟩
      rw [hex] at hn
      cases hn
    · intro hF
      rw [hC] at hF
      cases hF
    · intro hF
      rw [hC] at hF
      cases hF
    · intro _ hz2
      exact absurd hz2 hz
  · refine ⟨⟨?_, ?_⟩, ?_, ?_⟩
    · intro ⟨n, hn, hne⟩
      rw [hex] at hn
      simp only [Option.some.injEq] at hn
      subst hn
      exact absurd rfl hne
    · intro hF
      rw [hC] at hF
      cases hF
    · intro hF
      rw [hC] at hF
      cases hF
    · intro _ _
      exact hex

/-- Witness of C6: the run of scenario S5, whose window is not created, ends
with `EXIT_FAILURE` and without pump event or apartment release; the run of
scenario S6 ends with status 0. -/
theorem exit_status_contract_witness :
    answers_S5.Create = false ∧
    ((wWinMain MAX_PATH_windows answers_S5 World.fresh.env).exit_status = some EXIT_FAILURE ∧
      EXIT_FAILURE ≠ 0 ∧
      ∀ e ∈ (wWinMain MAX_PATH_windows answers_S5 World.fresh.env).world.trace,
        e.isPump = false ∧ e.isCoUninitialize = false) ∧
    answers_S6.Create = true ∧ (∃ x ∈ answers_S6.GetMessage, x.1 = 0) ∧
    (wWinMain MAX_PATH_windows answers_S6 World.fresh.env).exit_status = some 0 :=
  ⟨rfl,
    (exit_status_contract MAX_PATH_windows answers_S5 World.fresh.env).2.1 rfl,
    rfl, ⟨(0, 18), by decide, rfl⟩,
    (exit_status_contract MAX_PATH_windows answers_S6 World.fresh.env).2.2 rfl
      ⟨(0, 18), by decide, rfl⟩⟩

/-- C9 (argument fidelity): the entry-point arguments of the project
descriptor given to the window are exactly the sequence answered by
`GetCommandLineArguments`; the setter is called with that sequence and with
no other, and the window is constructed from a descriptor holding it. -/
theorem argument_fidelity (MAX_PATH : Nat) (os : Answers) (env : Env) :
    (wWinMain MAX_PATH os env).project.dart_entrypoint_arguments
      = os.GetCommandLineArguments ∧
    (∀ arguments,
      Event.set_dart_entrypoint_arguments arguments ∈ (wWinMain MAX_PATH os env).world.trace
        ↔ arguments = os.GetCommandLineArguments) ∧
    (∀ project,
      Event.FlutterWindow project ∈ (wWinMain MAX_PATH os env).world.trace
        ↔ project
          = { path := L "data", dart_entrypoint_arguments := os.GetCommandLineArguments }) := by
  obtain ⟨c, d, b, ht, hc, hd, _, hcase⟩ := wWinMain_shape MAX_PATH os env
  have hb : ∀ e ∈ b, e.isProject = false := by
    intro e he
    rcases hcase with ⟨_, hb, _⟩ | ⟨_, p, hp, ⟨_, hb, _⟩ | ⟨_, hb, _⟩⟩
    · rw [hb] at he; cases he
    · rw [hb] at he
      rcases List.mem_cons.mp he with he | he
      · subst he; rfl
      · exact (kinds_of_pump e (hp e he)).2.2.2.2.2
    · rw [hb] at he
      simp only [List.mem_append, List.mem_cons, List.not_mem_nil, or_false] at he
      rcases he with (he | he) | he
      · subst he; rfl
      · exact (kinds_of_pump e (hp e he)).2.2.2.2.2
      · subst he; rfl
  have hmem : ∀ e, e.isProject = true → (e ∈ (wWinMain MAX_PATH os env).world.trace ↔
      e ∈ [Event.DartProject (L "data"), Event.GetCommandLineArguments,
           Event.set_dart_entrypoint_arguments os.GetCommandLineArguments,
           Event.FlutterWindow
             { path := L "data", dart_entrypoint_arguments := os.GetCommandLineArguments }]) := by
    intro e hk
    have hsplit : e ∈ (wWinMain MAX_PATH os env).world.trace ↔
        e ∈ c ∨ e = Event.CoInitializeEx ∨ e ∈ d ∨
          (e = Event.DartProject (L "data") ∨ e = Event.GetCommandLineArguments ∨
            e = Event.set_dart_entrypoint_arguments os.GetCommandLineArguments ∨
            e = Event.FlutterWindow
              { path := L "data", dart_entrypoint_arguments := os.GetCommandLineArguments } ∨
            e = Event.Create (L "flutter_application_1") (10, 10) (1280, 720) os.Create) ∨
          e ∈ b := by
      rw [ht]
      simp only [List.mem_append, List.mem_cons, List.not_mem_nil, or_false]
      tauto
    rw [hsplit]
    simp only [List.mem_cons, List.not_mem_nil, or_false]
    constructor
    · intro he
      rcases he with he | he | he | he | he
      · rw [(kinds_of_console e (hc e he)).2.2.2.2.2.2.2] at hk; cases hk
      · subst he; cases hk
      · rw [(kinds_of_discovery e (hd e he)).2.2.2.2.2.2.2] at hk; cases hk
      · rcases he with he | he | he | he | he
        · exact Or.inl he
        · exact Or.inr (Or.inl he)
        · exact Or.inr (Or.inr (Or.inl he))
        · exact Or.inr (Or.inr (Or.inr he))
        · subst he; cases hk
      · rw [hb e he] at hk; cases hk
    · intro he
      right; right; right; left
      rcases he with he | he | he | he
      · exact Or.inl he
      · exact Or.inr (Or.inl he)
      · exact Or.inr (Or.inr (Or.inl he))
      · exact Or.inr (Or.inr (Or.inr (Or.inl he)))
  refine ⟨by rw [wWinMain_project], ?_, ?_⟩
  · intro arguments
    rw [hmem (Event.set_dart_entrypoint_arguments arguments) rfl]
    simp
  · intro project
    rw [hmem (Event.FlutterWindow project) rfl]
    simp

/-- Scenario S4 for C9: the arguments `--flag` and `value with spaces` reach
the project descriptor in that order. -/
theorem argument_fidelity_S4 :
    (wWinMain MAX_PATH_windows answers_S6 World.fresh.env).project.dart_entrypoint_arguments
      = ["--flag", "value with spaces"] :=
  (argument_fidelity MAX_PATH_windows answers_S6 World.fresh.env).1

/-- C10 (sequencing of the effect trace): in every run the apartment is
initialised exactly once, Runtime Discovery and the window creation take
place, the apartment initialisation and every discovery call come before the
window creation and before every message retrieval, and on the success path
the apartment is released exactly once, after every message dispatch. -/
theorem wWinMain_sequencing (MAX_PATH : Nat) (os : Answers) (env : Env) :
    (wWinMain MAX_PATH os env).world.trace.count Event.CoInitializeEx = 1 ∧
    Event.GetModuleFileName os.GetModuleFileName.length
      ∈ (wWinMain MAX_PATH os env).world.trace ∧
    (∃ e ∈ (wWinMain MAX_PATH os env).world.trace, e.isCreate = true) ∧
    occursBefore Event.isCoInitializeEx Event.isCreate (wWinMain MAX_PATH os env).world.trace ∧
    occursBefore Event.isCoInitializeEx Event.isGetMessage
      (wWinMain MAX_PATH os env).world.trace ∧
    occursBefore Event.isDiscovery Event.isCreate (wWinMain MAX_PATH os env).world.trace ∧
    occursBefore Event.isDiscovery Event.isGetMessage (wWinMain MAX_PATH os env).world.trace ∧
    ((wWinMain MAX_PATH os env).exit_status = some EXIT_SUCCESS →
      (wWinMain MAX_PATH os env).world.trace.count Event.CoUninitialize = 1 ∧
      occursBefore Event.isDispatchMessage Event.isCoUninitialize
        (wWinMain MAX_PATH os env).world.trace) := by
  obtain ⟨c, d, b, ht, hc, hd, hgmf, hcase⟩ := wWinMain_shape MAX_PATH os env
  -- the part of the trace that ends before `Create`, and the part from `Create` on
  have hsplit : (wWinMain MAX_PATH os env).world.trace
      = (c ++ Event.CoInitializeEx :: d ++
          [Event.DartProject (L "data"), Event.GetCommandLineArguments,
           Event.set_dart_entrypoint_arguments os.GetCommandLineArguments,
           Event.FlutterWindow
             { path := L "data", dart_entrypoint_arguments := os.GetCommandLineArguments }])
        ++ (Event.Create (L "flutter_application_1") (10, 10) (1280, 720) os.Create :: b) := by
    rw [ht]; simp
  have hA : ∀ e ∈ c ++ Event.CoInitializeEx :: d ++
          [Event.DartProject (L "data"), Event.GetCommandLineArguments,
           Event.set_dart_entrypoint_arguments os.GetCommandLineArguments,
           Event.FlutterWindow
             { path := L "data", dart_entrypoint_arguments := os.GetCommandLineArguments }],
      e.isCreate = false ∧ e.isGetMessage = false ∧ e.isCoUninitialize = false := by
    intro e he
    have he : e ∈ c ∨ e = Event.CoInitializeEx ∨ e ∈ d ∨
        e ∈ [Event.DartProject (L "data"), Event.GetCommandLineArguments,
          Event.set_dart_entrypoint_arguments os.GetCommandLineArguments,
          Event.FlutterWindow
            { path := L "data", dart_entrypoint_arguments := os.GetCommandLineArguments }] := by
      simp only [List.mem_append, List.mem_cons, List.not_mem_nil, or_false] at he ⊢
      tauto
    rcases he with he | he | he | he
    · have := kinds_of_console e (hc e he)
      exact ⟨this.2.2.2.1, this.2.2.2.2.1, this.2.1⟩
    · subst he; exact ⟨rfl, rfl, rfl⟩
    · have := kinds_of_discovery e (hd e he)
      exact ⟨this.2.2.2.1, this.2.2.2.2.1, this.2.1⟩
    · simp only [List.mem_cons, List.not_mem_nil, or_false] at he
      rcases he with he | he | he | he <;> (subst he; exact ⟨rfl, rfl, rfl⟩)
  have hb : ∀ e ∈ b, e.isCoInitializeEx = false ∧ e.isDiscovery = false := by
    intro e he
    rcases hcase with ⟨_, hb, _⟩ | ⟨_, p, hp, ⟨_, hb, _⟩ | ⟨_, hb, _⟩⟩
    · rw [hb] at he; cases he
    · rw [hb] at he
      rcases List.mem_cons.mp he with he | he
      · subst he; exact ⟨rfl, rfl⟩
      · exact ⟨(kinds_of_pump e (hp e he)).2.2.1, (kinds_of_pump e (hp e he)).1⟩
    · rw [hb] at he
      simp only [List.mem_append, List.mem_cons, List.not_mem_nil, or_false] at he
      rcases he with (he | he) | he
      · subst he; exact ⟨rfl, rfl⟩
      · exact ⟨(kinds_of_pump e (hp e he)).2.2.1, (kinds_of_pump e (hp e he)).1⟩
      · subst he; exact ⟨rfl, rfl⟩
  have hB : ∀ e ∈ Event.Create (L "flutter_application_1") (10, 10) (1280, 720) os.Create :: b,
      e.isCoInitializeEx = false ∧ e.isDiscovery = false := by
    intro e he
    rcases List.mem_cons.mp he with he | he
    · subst he; exact ⟨rfl, rfl⟩
    · exact hb e he
  have hcount_c : c.count Event.CoInitializeEx = 0 :=
    count_eq_zero_of_kind c _ Event.isConsole hc rfl
  have hcount_d : d.count Event.CoInitializeEx = 0 :=
    count_eq_zero_of_kind d _ Event.isDiscovery hd rfl
  have hcount_b : b.count Event.CoInitializeEx = 0 := by
    apply List.count_eq_zero_of_not_mem
    intro hmem
    have := (hb _ hmem).1
    cases this
  refine ⟨?_, ?_, ?_, ?_, ?_, ?_, ?_, ?_⟩
  · rw [ht]
    simp [List.count_cons, hcount_c, hcount_d, hcount_b]
  · rw [ht]
    simp [hgmf]
  · exact ⟨Event.Create (L "flutter_application_1") (10, 10) (1280, 720) os.Create,
      by rw [ht]; simp, rfl⟩
  · exact occursBefore_of_split _ _ _ _ _ hsplit (fun e he => (hA e he).1)
      (fun e he => (hB e he).1)
  · exact occursBefore_of_split _ _ _ _ _ hsplit (fun e he => (hA e he).2.1)
      (fun e he => (hB e he).1)
  · exact occursBefore_of_split _ _ _ _ _ hsplit (fun e he => (hA e he).1)
      (fun e he => (hB e he).2)
  · exact occursBefore_of_split _ _ _ _ _ hsplit (fun e he => (hA e he).2.1)
      (fun e he => (hB e he).2)
  · intro hexit
    rcases hcase with ⟨_, _, hex⟩ | ⟨_, p, hp, ⟨_, _, hex⟩ | ⟨_, hbeq, _⟩⟩
    · rw [hex] at hexit; cases hexit
    · rw [hex] at hexit; cases hexit
    · have hcount_p : p.count Event.CoUninitialize = 0 :=
        count_eq_zero_of_kind p _ Event.isPump hp rfl
      have hcount_c' : c.count Event.CoUninitialize = 0 :=
        count_eq_zero_of_kind c _ Event.isConsole hc rfl
      have hcount_d' : d.count Event.CoUninitialize = 0 :=
        count_eq_zero_of_kind d _ Event.isDiscovery hd rfl
      have hlast : (wWinMain MAX_PATH os env).world.trace
          = ((c ++ Event.CoInitializeEx :: d ++
              [Event.DartProject (L "data"), Event.GetCommandLineArguments,
               Event.set_dart_entrypoint_arguments os.GetCommandLineArguments,
               Event.FlutterWindow
                 { path := L "data",
                   dart_entrypoint_arguments := os.GetCommandLineArguments }])
            ++ (Event.Create (L "flutter_application_1") (10, 10) (1280, 720) os.Create
                :: Event.SetQuitOnClose true :: p))
            ++ [Event.CoUninitialize] := by
        rw [ht, hbeq]; simp
      constructor
      · rw [ht, hbeq]
        simp [List.count_cons, hcount_c', hcount_d', hcount_p]
      · apply occursBefore_of_split _ _ _ _ _ hlast
        · intro e he
          rcases List.mem_append.mp he with he | he
          · exact (hA e he).2.2
          · simp only [List.mem_cons] at he
            rcases he with he | he | he
            · subst he; rfl
            · subst he; rfl
            · exact (kinds_of_pump e (hp e he)).2.1
        · intro e he
          simp only [List.mem_singleton] at he
          subst he; rfl

/-- Witness of C10: the run of scenario S6 ends with `EXIT_SUCCESS`, releases
the apartment once, and does so after every dispatch. -/
theorem wWinMain_sequencing_witness :
    (wWinMain MAX_PATH_windows answers_S6 World.fresh.env).exit_status = some EXIT_SUCCESS ∧
    (wWinMain MAX_PATH_windows answers_S6 World.fresh.env).world.trace.count
      Event.CoUninitialize = 1 ∧
    occursBefore Event.isDispatchMessage Event.isCoUninitialize
      (wWinMain MAX_PATH_windows answers_S6 World.fresh.env).world.trace :=
  ⟨by decide,
    (wWinMain_sequencing MAX_PATH_windows answers_S6 World.fresh.env).2.2.2.2.2.2.2 (by decide)⟩

end Runner
